import Mathlib

/-!
# Shallow embedding of the fitness-tracker account/credential core

This file embeds the account/credential subsystem of the fitness-tracker
app (`src/services/AuthService.js`) and the relational data store it
protects (`DatabaseService`, the unnamed SQLite service module) as pure
Lean functions, and proves or refutes the frozen specification claims
against that embedding.

Modelling conventions:
* SQLite tables become lists of row structures inside a `DB` record;
  `AUTOINCREMENT` primary keys become explicit `next…Id` counters.
* JS objects returned by `SELECT` become structures; a column a query
  does not select (`password_hash` in `getUserById`) becomes an `Option`
  field holding `none`, so field presence/absence is observable.
* `async` JS functions that can `throw` become functions returning
  `Except JsError α × AuthState` (result plus post-state); a `throw`
  is `.error e` paired with the state at the moment of the throw.
  Typed `new Error(msg)` throws are `JsError.thrown msg`; runtime
  failures such as dereferencing `null`/`undefined` are
  `JsError.typeError msg`.
* The external crypto digest (`Crypto.digestStringAsync` with SHA-256,
  hex output) and the random salt bytes (`Crypto.getRandomBytesAsync 16`)
  are not code of this repository; they enter the model as parameters
  (`digest : String → String`, `saltBytes : List Nat`), so every theorem
  holds for an arbitrary digest function unless it assumes the one fact
  used about real SHA-256 hex output (it contains no `:`).
* SQL `REAL` columns are modelled as `ℚ`, `DATE`/`TEXT` columns as
  `String`; the `BETWEEN` comparison on `DATE` text uses bytewise
  (`BINARY`-collation) ordering, modelled by `charListLe` on the
  character lists (identical to byte order on the ASCII dates in play).
* JS regex-free string primitives (`split(':')`, `@`-validation) are
  modelled by executable functions on `List Char` defined below.
-/

/-- Errors surfaced by the JS service layer: `thrown msg` models
`throw new Error(msg)`, `typeError msg` models a runtime `TypeError`
(e.g. reading a property of `null`/`undefined`). -/
inductive JsError where
  | thrown (msg : String)
  | typeError (msg : String)
  deriving Repr, DecidableEq

/-! ## Relational store rows (schema from `createTables`) -/

/-- A row of the `users` table: `id INTEGER PRIMARY KEY AUTOINCREMENT`,
`email TEXT UNIQUE NOT NULL`, `password_hash TEXT NOT NULL`,
`full_name TEXT NOT NULL` (the `created_at` default timestamp carries no
information the claims touch and is omitted). -/
structure UserRow where
  id : Nat
  email : String
  password_hash : String
  full_name : String
  deriving Repr, DecidableEq

/-- A row of the `user_profiles` table (nullable columns are `Option`). -/
structure ProfileRow where
  user_id : Nat
  age : Option Int
  weight : Option ℚ
  height : Option ℚ
  gender : Option String
  fitness_goal : Option String
  deriving Repr, DecidableEq

/-- A row of the `fitness_activities` table; `is_active INTEGER DEFAULT 1`. -/
structure ActivityRow where
  id : Nat
  user_id : Nat
  name : String
  description : String
  icon : String
  target_value : ℚ
  target_unit : String
  category : String
  is_active : Nat
  deriving Repr, DecidableEq

/-- A row of the `activity_logs` table; the table carries
`UNIQUE(activity_id, log_date)` and `completed INTEGER DEFAULT 0`. -/
structure LogRow where
  id : Nat
  activity_id : Nat
  user_id : Nat
  completed : Nat
  actual_value : Option ℚ
  notes : Option String
  log_date : String
  deriving Repr, DecidableEq

/-- The relational store: the tables the claims touch, plus the
`AUTOINCREMENT` counters (workout sessions and body measurements play no
role in any claim and are omitted). -/
structure DB where
  users : List UserRow
  profiles : List ProfileRow
  activities : List ActivityRow
  logs : List LogRow
  nextUserId : Nat
  nextActivityId : Nat
  nextLogId : Nat
  deriving Repr, DecidableEq

/-- A user object as the JS service layer passes it around: the
`password_hash` field is `some h` when the originating query selected the
column, `none` when it was never selected or was stripped by
destructuring. -/
structure JsUser where
  id : Nat
  email : String
  full_name : String
  password_hash : Option String
  deriving Repr, DecidableEq

/-- The AsyncStorage session record: `{ user, timestamp }`; the JS `user`
slot may hold `undefined`, hence `Option JsUser`. The timestamp carries no
information the claims touch. -/
structure Session where
  user : Option JsUser
  deriving Repr, DecidableEq

/-- Combined state of the service layer: the SQLite database plus the
AsyncStorage session slot. -/
structure AuthState where
  db : DB
  session : Option Session
  deriving Repr, DecidableEq

/-! ## String primitives -/

/-- JS `String.prototype.split(':')` on the character list: splits at every
`:` and keeps empty segments, so `splitOnColon [] = [[]]` as in JS. -/
def splitOnColon : List Char → List (List Char)
  | [] => [[]]
  | c :: cs =>
    match splitOnColon cs with
    | [] => [[c]]
    | h :: t => if c = ':' then [] :: h :: t else (c :: h) :: t

/-- Bytewise (SQLite `BINARY`-collation) `≤` on character lists, used for
the `BETWEEN` comparison on `DATE` text. -/
def charListLe : List Char → List Char → Bool
  | [], _ => true
  | _ :: _, [] => false
  | a :: as, b :: bs => if a = b then charListLe as bs else decide (a < b)

/-- `BETWEEN`-style comparison on date strings. -/
def dateLe (a b : String) : Bool := charListLe a.data b.data

/-! ## Credential hasher (`AuthService.generateSalt` / `hashPassword` /
`verifyPassword`) -/

/-- One hexadecimal digit, lowercase, as produced by
`byte.toString(16)`. -/
def hexDigit (n : Nat) : Char :=
  if n < 10 then Char.ofNat ('0'.toNat + n) else Char.ofNat ('a'.toNat + (n - 10))

/-- One byte as two hex characters: `byte.toString(16).padStart(2, '0')`. -/
def byteToHex (b : Nat) : List Char := [hexDigit (b % 256 / 16), hexDigit (b % 16)]

/-- `generateSalt`: hex-encodes the 16 random bytes obtained from
`Crypto.getRandomBytesAsync`; the bytes are a parameter of the model. -/
def generateSalt (saltBytes : List Nat) : String :=
  String.mk (saltBytes.flatMap byteToHex)

/-- `hashPassword`: digest of `password + salt`, stored as
`salt:hash`. -/
def hashPassword (digest : String → String) (saltBytes : List Nat)
    (password : String) : String :=
  let salt := generateSalt saltBytes
  salt ++ ":" ++ digest (password ++ salt)

/-- `verifyPassword(password, storedHash)`: splits `storedHash` on `:`,
destructures the first two parts as `salt` and `hash` (the latter may be
JS `undefined`, hence `Option`), recomputes the digest of
`password + salt` and compares. Total: the JS `try/catch` turns any
internal failure into `false`. -/
def verifyPassword (digest : String → String) (password stored : String) : Bool :=
  let parts := (splitOnColon stored.data).map String.mk
  let salt := parts.headD ""
  let hash := parts[1]?
  let computedHash := digest (password ++ salt)
  hash == some computedHash

/-! ## Input validation (`AuthService.validateEmail` / `validatePassword`) -/

/-- A character matched by the regex class `[^\s@]`; JS `\s` is
modelled by `Char.isWhitespace`. -/
def isEmailChar (c : Char) : Bool := !c.isWhitespace && c ≠ '@'

/-- `validateEmail`: the regex `^[^\s@]+@[^\s@]+\.[^\s@]+$`
matches exactly the strings of shape `A @ B . C` with `A`, `B`, `C`
nonempty runs of non-whitespace, non-`@` characters (dots may occur
inside `A`, `B`, `C`); equivalently: no whitespace, exactly one `@`,
a nonempty local part, and a dot at an interior position of the domain
part. -/
def validateEmail (s : String) : Bool :=
  let cs := s.data
  cs.all (fun c => !c.isWhitespace) &&
  cs.count '@' == 1 &&
  (cs.takeWhile (· ≠ '@')).length > 0 &&
  (let domain := (cs.dropWhile (· ≠ '@')).drop 1
   domain.enum.any (fun pc => pc.2 == '.' && 0 < pc.1 && pc.1 + 1 < domain.length))

/-- Result object of `validatePassword`. -/
structure PasswordValidation where
  isValid : Bool
  errors : List String
  deriving Repr, DecidableEq

/-- `validatePassword` as the source actually implements it: the comment
announces the 8-chars/upper/lower/digit policy but the body is a stub that
collects no errors, so every password is reported valid. -/
def validatePassword (_password : String) : PasswordValidation :=
  let errors : List String := []
  { isValid := errors.length == 0, errors := errors }

/-- JS `String.prototype.toLowerCase()` (character-wise). -/
def jsToLower (s : String) : String := String.mk (s.data.map Char.toLower)

/-- JS `String.prototype.trim()`: strips leading and trailing
whitespace. -/
def jsTrim (s : String) : String :=
  String.mk (((s.data.dropWhile Char.isWhitespace).reverse.dropWhile
    Char.isWhitespace).reverse)

/-! ## DatabaseService operations -/

/-- `getUserByEmail`: `SELECT id, email, password_hash, full_name, … FROM
users WHERE email = ?` via `getFirstAsync` — the first matching row. -/
def getUserByEmail (db : DB) (email : String) : Option UserRow :=
  db.users.find? (fun u => u.email == email)

/-- `getUserById`: `SELECT id, email, full_name, … FROM users WHERE id = ?`
— note the projection does **not** select `password_hash`, so the returned
object carries none. -/
def getUserById (db : DB) (userId : Nat) : Option JsUser :=
  (db.users.find? (fun u => u.id == userId)).map
    (fun u => { id := u.id, email := u.email, full_name := u.full_name,
                password_hash := none })

/-- `createUser`: `INSERT INTO users (email, password_hash, full_name)`;
the `UNIQUE` constraint on `email` makes the insert fail if the email is
already present. Returns `lastInsertRowId`. -/
def createUser (db : DB) (email passwordHash fullName : String) :
    Except JsError (Nat × DB) :=
  if db.users.any (fun u => u.email == email) then
    .error (.thrown "UNIQUE constraint failed: users.email")
  else
    .ok (db.nextUserId,
      { db with
        users := db.users ++
          [{ id := db.nextUserId, email := email,
             password_hash := passwordHash, full_name := fullName }],
        nextUserId := db.nextUserId + 1 })

/-- Profile payload handed to `createOrUpdateProfile`. -/
structure ProfileData where
  age : Option Int
  weight : Option ℚ
  height : Option ℚ
  gender : Option String
  fitness_goal : Option String
  deriving Repr, DecidableEq

/-- `createOrUpdateProfile`: upsert on `user_profiles.user_id`. -/
def createOrUpdateProfile (db : DB) (userId : Nat) (p : ProfileData) : DB :=
  if db.profiles.any (fun r => r.user_id == userId) then
    { db with profiles := db.profiles.map (fun r =>
        if r.user_id == userId then
          { r with age := p.age, weight := p.weight, height := p.height,
                   gender := p.gender, fitness_goal := p.fitness_goal }
        else r) }
  else
    { db with profiles := db.profiles ++
        [{ user_id := userId, age := p.age, weight := p.weight,
           height := p.height, gender := p.gender,
           fitness_goal := p.fitness_goal }] }

/-- Activity payload handed to `createActivity`. -/
structure ActivityData where
  name : String
  description : String
  icon : String
  target_value : ℚ
  target_unit : String
  category : String
  deriving Repr, DecidableEq

/-- `createActivity`: `INSERT INTO fitness_activities …` (`is_active`
takes its column default `1`). Returns `lastInsertRowId`. -/
def createActivity (db : DB) (userId : Nat) (a : ActivityData) : Nat × DB :=
  (db.nextActivityId,
    { db with
      activities := db.activities ++
        [{ id := db.nextActivityId, user_id := userId, name := a.name,
           description := a.description, icon := a.icon,
           target_value := a.target_value, target_unit := a.target_unit,
           category := a.category, is_active := 1 }],
      nextActivityId := db.nextActivityId + 1 })

/-- NULL-aware SQL equality on an `INTEGER` column: a comparison against
`NULL` is never true. -/
def sqlEqNat : Option Nat → Option Nat → Bool
  | some a, some b => a == b
  | _, _ => false

/-- The statement `UPDATE fitness_activities SET is_active = 0 WHERE id = ?`
executed with `boundId` bound to the placeholder. -/
def runSetInactiveWhereId (db : DB) (boundId : Option Nat) : DB :=
  { db with activities := db.activities.map (fun a =>
      if sqlEqNat (some a.id) boundId then { a with is_active := 0 } else a) }

/-- `deleteActivity(activityId)`: the source executes the update above with
an **empty** parameter array (`[]`), so the `?` placeholder is never bound
and SQLite evaluates it as `NULL`; the received `activityId` is ignored. -/
def deleteActivity (db : DB) (_activityId : Nat) : DB :=
  runSetInactiveWhereId db none

/-- `logActivity`: `INSERT OR REPLACE INTO activity_logs …` — the
conflicting row(s) on `UNIQUE(activity_id, log_date)` are deleted and a
fresh row (fresh `AUTOINCREMENT` id) is inserted. -/
def logActivity (db : DB) (userId activityId : Nat) (date : String)
    (completed : Bool) (actualValue : Option ℚ) (notes : Option String) : DB :=
  { db with
    logs :=
      db.logs.filter (fun l => !(l.activity_id == activityId && l.log_date == date)) ++
      [{ id := db.nextLogId, activity_id := activityId, user_id := userId,
         completed := if completed then 1 else 0,
         actual_value := actualValue, notes := notes, log_date := date }],
    nextLogId := db.nextLogId + 1 }

/-- One output row of `getActivityStats`. -/
structure ActivityStat where
  id : Nat
  name : String
  category : String
  completed_count : Nat
  total_count : Nat
  completion_rate : ℚ
  deriving Repr, DecidableEq

/-- The group the `LEFT JOIN … GROUP BY fa.id` forms for one activity:
the logs joined by `fa.id = al.activity_id AND al.log_date BETWEEN ? AND ?`;
when no log matches, the left join still emits one row whose log side is
all-`NULL` (`none`). -/
def joinRowsFor (db : DB) (startDate endDate : String) (fa : ActivityRow) :
    List (Option LogRow) :=
  let matched := db.logs.filter (fun al =>
    al.activity_id == fa.id && dateLe startDate al.log_date &&
    dateLe al.log_date endDate)
  if matched.isEmpty then [none] else matched.map some

/-- The aggregates of one `GROUP BY` group:
`completed_count` is `COUNT(CASE WHEN al.completed = 1 THEN 1 END)`
(NULL rows are not counted), `total_count` is `COUNT(*)` (every join row
is counted, the all-NULL row included), and `completion_rate` is
`AVG(CASE WHEN al.completed = 1 THEN 1.0 ELSE 0.0 END) * 100` (the CASE
is never NULL, so AVG divides by the number of join rows). -/
def statForActivity (db : DB) (startDate endDate : String) (fa : ActivityRow) :
    ActivityStat :=
  let rows := joinRowsFor db startDate endDate fa
  { id := fa.id, name := fa.name, category := fa.category,
    completed_count := rows.countP (fun r =>
      match r with | some l => l.completed == 1 | none => false),
    total_count := rows.length,
    completion_rate :=
      ((rows.map (fun r =>
        match r with
        | some l => if l.completed == 1 then (1 : ℚ) else 0
        | none => 0)).sum / (rows.length : ℚ)) * 100 }

/-- `getActivityStats(userId, startDate, endDate)`: one aggregate row per
activity of the user with `is_active = 1`. -/
def getActivityStats (db : DB) (userId : Nat) (startDate endDate : String) :
    List ActivityStat :=
  (db.activities.filter (fun fa => fa.user_id == userId && fa.is_active == 1)).map
    (statForActivity db startDate endDate)

/-! ## AuthService operations

Each operation returns its JS result (or the error thrown) together with
the post-state `AuthState`. -/

/-- `createSession(user)`: writes `{ user, timestamp }` to AsyncStorage
under the fixed session key and caches the user. -/
def createSession (u : Option JsUser) (st : AuthState) : AuthState :=
  { st with session := some { user := u } }

/-- `getCurrentUser()`: reads the persisted session; absent (or corrupt,
via the catch-all) storage yields `null`. Read-only. -/
def getCurrentUser (st : AuthState) : Option JsUser :=
  match st.session with
  | none => none
  | some s => s.user

/-- `logout()`: removes the session record. -/
def logout (st : AuthState) : AuthState :=
  { st with session := none }

/-- The fixed catalog handed to `createDefaultActivities`
(names/icons transcribed byte-for-byte from the source, escapes
included). -/
def defaultActivities : List ActivityData :=
  [ { name := "ðŸ’§ Hydration",
      description := "Drink water throughout the day",
      icon := "ðŸ’§", target_value := 8,
      target_unit := "glasses", category := "nutrition" },
    { name := "ðŸƒ Cardio",
      description := "Cardiovascular exercise",
      icon := "ðŸƒ", target_value := 30,
      target_unit := "minutes", category := "exercise" },
    { name := "ðŸ‹ï¸ Strength",
      description := "Strength training workout",
      icon := "ðŸ‹ï¸", target_value := 45,
      target_unit := "minutes", category := "exercise" },
    { name := "ðŸ§˜ Stretching",
      description := "Flexibility and mobility work",
      icon := "ðŸ§˜", target_value := 15,
      target_unit := "minutes", category := "recovery" },
    { name := "ðŸ˜´ Sleep",
      description := "Quality sleep",
      icon := "ðŸ˜´", target_value := 8,
      target_unit := "hours", category := "recovery" },
    { name := "ðŸ¥— Healthy Meal",
      description := "Balanced, nutritious meal",
      icon := "ðŸ¥—", target_value := 3,
      target_unit := "meals", category := "nutrition" },
    { name := "ðŸ“Š Track Progress",
      description := "Log weight or measurements",
      icon := "ðŸ“Š", target_value := 1,
      target_unit := "entry", category := "tracking" } ]

/-- `createDefaultActivities(userId)`: inserts the seven catalog
activities one after the other. -/
def createDefaultActivities (db : DB) (userId : Nat) : DB :=
  defaultActivities.foldl (fun d a => (createActivity d userId a).2) db

/-- The all-`null` profile payload `register` creates. -/
def emptyProfile : ProfileData :=
  { age := none, weight := none, height := none, gender := none,
    fitness_goal := none }

/-- `register(email, password, fullName)`: validates the email shape, the
password strength (via the stub `validatePassword`) and the name length,
rejects duplicate normalized emails, then hashes the password, creates the
user row, an empty profile and the default activities, re-reads the user
via `getUserById` (whose projection drops `password_hash`) and persists it
in a fresh session. -/
def register (digest : String → String) (saltBytes : List Nat) (st : AuthState)
    (email password fullName : String) :
    Except JsError (Option JsUser) × AuthState :=
  if !validateEmail email then (.error (.thrown "Invalid email format"), st)
  else
    let pv := validatePassword password
    if !pv.isValid then
      (.error (.thrown (String.intercalate ". " pv.errors)), st)
    else if (jsTrim fullName).length < 2 then
      (.error (.thrown "Full name must be at least 2 characters"), st)
    else
      match getUserByEmail st.db (jsToLower email) with
      | some _ => (.error (.thrown "Email already registered"), st)
      | none =>
        let passwordHash := hashPassword digest saltBytes password
        match createUser st.db (jsToLower email) passwordHash (jsTrim fullName) with
        | .error e => (.error e, st)
        | .ok (userId, db1) =>
          let db2 := createOrUpdateProfile db1 userId emptyProfile
          let db3 := createDefaultActivities db2 userId
          let user := getUserById db3 userId
          (.ok user, createSession user { st with db := db3 })

/-- `login(email, password)`: looks the user up by normalized email,
verifies the password against the stored `salt:hash`, strips
`password_hash` by destructuring, persists the stripped record in a
session and returns it. Both failure modes throw the same
`Invalid email or password`. -/
def login (digest : String → String) (st : AuthState) (email password : String) :
    Except JsError JsUser × AuthState :=
  match getUserByEmail st.db (jsToLower email) with
  | none => (.error (.thrown "Invalid email or password"), st)
  | some user =>
    if verifyPassword digest password user.password_hash then
      let userWithoutPassword : JsUser :=
        { id := user.id, email := user.email, full_name := user.full_name,
          password_hash := none }
      (.ok userWithoutPassword, createSession (some userWithoutPassword) st)
    else
      (.error (.thrown "Invalid email or password"), st)

/-- `changePassword(userId, currentPassword, newPassword)`: reads the user
by id — if no row matches, `user` is `undefined` and the subsequent
`user.email` dereference raises a runtime `TypeError` (re-thrown by the
catch block) — then re-reads the full row by email, verifies the current
password, validates the new one (stub) and updates `password_hash`. -/
def changePassword (digest : String → String) (saltBytes : List Nat)
    (st : AuthState) (userId : Nat) (currentPassword newPassword : String) :
    Except JsError Bool × AuthState :=
  match getUserById st.db userId with
  | none =>
    (.error (.typeError "Cannot read properties of undefined (reading email)"), st)
  | some user =>
    match getUserByEmail st.db user.email with
    | none =>
      (.error
        (.typeError "Cannot read properties of undefined (reading password_hash)"),
       st)
    | some fullUser =>
      if !verifyPassword digest currentPassword fullUser.password_hash then
        (.error (.thrown "Current password is incorrect"), st)
      else
        let pv := validatePassword newPassword
        if !pv.isValid then
          (.error (.thrown (String.intercalate ". " pv.errors)), st)
        else
          let newPasswordHash := hashPassword digest saltBytes newPassword
          (.ok true,
           { st with db := { st.db with users := st.db.users.map (fun u =>
               if u.id == userId then { u with password_hash := newPasswordHash }
               else u) } })

/-! ## Operation sequences (for reachability claims) -/

/-- One externally invocable AuthService operation. -/
inductive Op where
  | register (email password fullName : String)
  | login (email password : String)
  | getCurrentUser
  | logout
  deriving Repr

/-- State transition of one operation (results discarded;
`getCurrentUser` is read-only). -/
def applyOp (digest : String → String) (saltBytes : List Nat)
    (st : AuthState) : Op → AuthState
  | .register e p n => (register digest saltBytes st e p n).2
  | .login e p => (login digest st e p).2
  | .getCurrentUser => st
  | .logout => logout st

/-- Run a sequence of operations from a starting state. -/
def runOps (digest : String → String) (saltBytes : List Nat)
    (st : AuthState) (ops : List Op) : AuthState :=
  ops.foldl (applyOp digest saltBytes) st

/-- The session-secrecy invariant: whatever user object the persisted
session holds carries no `password_hash`. -/
def sessionClean (st : AuthState) : Prop :=
  ∀ s, st.session = some s → ∀ u, s.user = some u → u.password_hash = none

/-- The store a *successful* `register` leaves behind (all guards passed):
the row `createUser` appends, then the empty profile and the default
activity catalog. Named only to state the success normal form of
`register` compactly; it is exactly the store built inside `register`. -/
def registerDb (digest : String → String) (saltBytes : List Nat) (db : DB)
    (email password fullName : String) : DB :=
  createDefaultActivities
    (createOrUpdateProfile
      { db with
        users := db.users ++
          [{ id := db.nextUserId, email := jsToLower email,
             password_hash := hashPassword digest saltBytes password,
             full_name := jsTrim fullName }],
        nextUserId := db.nextUserId + 1 }
      db.nextUserId emptyProfile)
    db.nextUserId

/-! ## Concrete fixtures for witnesses and counterexamples -/

/-- A fresh, empty store (`AUTOINCREMENT` counters start at 1). -/
def emptyDB : DB :=
  { users := [], profiles := [], activities := [], logs := [],
    nextUserId := 1, nextActivityId := 1, nextLogId := 1 }

/-- Service state right after `init`: empty database, no session. -/
def emptyAuthState : AuthState := { db := emptyDB, session := none }

/-- A concrete stand-in for the external digest function, used only to
instantiate witnesses (theorems about the hasher quantify over the
digest). -/
def demoDigest : String → String := fun _ => "d4c2"

/-- Concrete salt bytes for witnesses. -/
def demoSaltBytes : List Nat := List.replicate 16 0

/-- One active activity owned by user 1. -/
def statsActivity : ActivityRow :=
  { id := 1, user_id := 1, name := "Run", description := "", icon := "",
    target_value := 1, target_unit := "min", category := "exercise",
    is_active := 1 }

/-- A store with one user, one active activity and no logs at all. -/
def statsDB : DB :=
  { users := [{ id := 1, email := "a@b.c", password_hash := "s:h",
                full_name := "Alice" }],
    profiles := [], activities := [statsActivity], logs := [],
    nextUserId := 2, nextActivityId := 2, nextLogId := 1 }


/-! ## Supporting lemmas -/

theorem splitOnColon_ne_nil (l : List Char) : splitOnColon l ≠ [] := by
  cases l with
  | nil => simp [splitOnColon]
  | cons c cs =>
    simp only [splitOnColon]
    cases splitOnColon cs with
    | nil => simp
    | cons h t =>
      by_cases hc : c = ':' <;> simp [hc]

theorem splitOnColon_of_no_colon (l : List Char) (h : ':' ∉ l) :
    splitOnColon l = [l] := by
  induction l with
  | nil => rfl
  | cons c cs ih =>
    have hc : c ≠ ':' := fun hcc => h (hcc ▸ List.mem_cons_self c cs)
    have hcs : ':' ∉ cs := fun hm => h (List.mem_cons_of_mem c hm)
    simp only [splitOnColon, ih hcs]
    simp [hc]

theorem splitOnColon_append (a b : List Char) (ha : ':' ∉ a) :
    splitOnColon (a ++ ':' :: b) = a :: splitOnColon b := by
  induction a with
  | nil =>
    simp only [List.nil_append, splitOnColon]
    cases hb : splitOnColon b with
    | nil => exact absurd hb (splitOnColon_ne_nil b)
    | cons h t => simp
  | cons c cs ih =>
    have hc : c ≠ ':' := fun hcc => ha (hcc ▸ List.mem_cons_self c cs)
    have hcs : ':' ∉ cs := fun hm => ha (List.mem_cons_of_mem c hm)
    have hstep : splitOnColon ((c :: cs) ++ ':' :: b) =
        match splitOnColon (cs ++ ':' :: b) with
        | [] => [[c]]
        | h :: t => if c = ':' then [] :: h :: t else (c :: h) :: t := rfl
    rw [hstep, ih hcs]
    simp [hc]

theorem hexDigit_ne_colon : ∀ n, n < 16 → hexDigit n ≠ ':' := by decide

theorem generateSalt_no_colon (saltBytes : List Nat) :
    ':' ∉ (generateSalt saltBytes).data := by
  intro hmem
  have : ':' ∈ saltBytes.flatMap byteToHex := hmem
  rcases List.mem_flatMap.mp this with ⟨b, _, hb⟩
  simp only [byteToHex, List.mem_cons, List.not_mem_nil, or_false] at hb
  rcases hb with h1 | h2
  · exact hexDigit_ne_colon _ (by omega) h1.symm
  · exact hexDigit_ne_colon _ (by omega) h2.symm

/-- The data of `s ++ ":" ++ h` is `s.data ++ ':' :: h.data`. -/
theorem data_append_colon (s h : String) :
    (s ++ ":" ++ h).data = s.data ++ ':' :: h.data := by
  rw [String.data_append, String.data_append]
  show s.data ++ [':'] ++ h.data = s.data ++ ':' :: h.data
  rw [List.append_assoc, List.singleton_append]

/-- Round trip of the hasher: verifying a password against the stored
string `hashPassword` produced for it succeeds, for any digest function
whose output contains no `:` (true of SHA-256 hex output). -/
theorem verifyPassword_hashPassword (digest : String → String)
    (hdig : ∀ s, ':' ∉ (digest s).data) (saltBytes : List Nat) (password : String) :
    verifyPassword digest password (hashPassword digest saltBytes password) = true := by
  unfold verifyPassword hashPassword
  rw [data_append_colon,
    splitOnColon_append _ _ (generateSalt_no_colon saltBytes),
    splitOnColon_of_no_colon _ (hdig _)]
  simp

/-- Whatever `getUserById` returns carries no `password_hash` (the query
does not select that column). -/
theorem getUserById_password_hash (db : DB) (userId : Nat) (u : JsUser)
    (h : getUserById db userId = some u) : u.password_hash = none := by
  unfold getUserById at h
  rcases Option.map_eq_some'.mp h with ⟨r, _, hr⟩
  exact hr ▸ rfl

/-- Whatever `getUserById` returns has the id that was asked for. -/
theorem getUserById_id (db : DB) (userId : Nat) (u : JsUser)
    (h : getUserById db userId = some u) : u.id = userId := by
  unfold getUserById at h
  rcases Option.map_eq_some'.mp h with ⟨r, hfind, hr⟩
  have := List.find?_some hfind
  have hid : r.id = userId := by simpa using this
  rw [← hr]
  exact hid

theorem createOrUpdateProfile_users (db : DB) (userId : Nat) (p : ProfileData) :
    (createOrUpdateProfile db userId p).users = db.users := by
  unfold createOrUpdateProfile
  split <;> rfl

theorem createDefaultActivities_users (db : DB) (userId : Nat) :
    (createDefaultActivities db userId).users = db.users := by
  unfold createDefaultActivities
  generalize defaultActivities = l
  induction l generalizing db with
  | nil => rfl
  | cons a as ih => exact (ih _).trans rfl

theorem createOrUpdateProfile_nextUserId (db : DB) (userId : Nat) (p : ProfileData) :
    (createOrUpdateProfile db userId p).nextUserId = db.nextUserId := by
  unfold createOrUpdateProfile
  split <;> rfl

theorem getUserByEmail_none_any (db : DB) (email : String)
    (h : getUserByEmail db email = none) :
    db.users.any (fun u => u.email == email) = false := by
  simp only [List.any_eq_false]
  intro x hx
  exact List.find?_eq_none.mp h x hx

/-! ## Claim C1 — password policy at registration -/

/-- C1 (code_bug evidence): `register` accepts the password `"weak"`
(length 4, no uppercase, no digit) and creates the user — the
password-strength validator is a stub that reports every password valid,
while its own comment (and the repository README) documents the
8-chars/upper/lower/digit policy. -/
theorem register_accepts_weak_password :
    (register demoDigest demoSaltBytes emptyAuthState "a@b.c" "weak" "Alice").1 =
      .ok (some { id := 1, email := "a@b.c", full_name := "Alice",
                  password_hash := none }) ∧
    (register demoDigest demoSaltBytes emptyAuthState
        "a@b.c" "weak" "Alice").2.db.users.length = 1 := by
  constructor <;> rfl

/-! ## Claim C2 — deleteActivity -/

/-- C2 (code_bug evidence): `deleteActivity` runs
`UPDATE fitness_activities SET is_active = 0 WHERE id = ?` with an empty
parameter array, so the placeholder is bound to NULL and the WHERE clause
matches no row: the operation ignores its argument and leaves the entire
store unchanged — in particular it never sets `is_active = 0` on the
requested activity. -/
theorem deleteActivity_is_identity (db : DB) (activityId : Nat) :
    deleteActivity db activityId = db := by
  unfold deleteActivity runSetInactiveWhereId
  have hrow : ∀ a : ActivityRow,
      (if sqlEqNat (some a.id) none then { a with is_active := 0 } else a) = a := by
    intro a; rfl
  simp only [hrow, List.map_id']

/-! ## Claim C3 — logActivity upsert -/

/-- After one `logActivity` call, the store holds exactly one log row for
the key `(activityId, date)`, and it is the row just written (the
`INSERT OR REPLACE` first removes every row conflicting on
`UNIQUE(activity_id, log_date)`). -/
theorem logActivity_filter_key (db : DB) (u a : Nat) (d : String) (c : Bool)
    (v : Option ℚ) (n : Option String) :
    (logActivity db u a d c v n).logs.filter
        (fun l => l.activity_id == a && l.log_date == d) =
      [{ id := db.nextLogId, activity_id := a, user_id := u,
         completed := if c then 1 else 0, actual_value := v, notes := n,
         log_date := d }] := by
  unfold logActivity
  rw [List.filter_append]
  have h1 : (db.logs.filter
      (fun l => !(l.activity_id == a && l.log_date == d))).filter
      (fun l => l.activity_id == a && l.log_date == d) = [] := by
    rw [List.filter_eq_nil_iff]
    intro x hx
    have hx2 := (List.mem_filter.mp hx).2
    simp only [Bool.not_eq_true'] at hx2
    simp [hx2]
  rw [h1]
  simp

/-- C3: invoking `logActivity` twice in succession for the same
`(activity, date)` key — from any prior store state — leaves exactly one
log row for that key (a singleton filter result), and that row carries the
`completed`, `actual_value` and `notes` of the second invocation. The
operation is total: the second call replaces rather than violating the
UNIQUE constraint. -/
theorem logActivity_twice_single_row (db : DB) (u a : Nat) (d : String)
    (c1 : Bool) (v1 : Option ℚ) (n1 : Option String)
    (c2 : Bool) (v2 : Option ℚ) (n2 : Option String) :
    ((logActivity (logActivity db u a d c1 v1 n1) u a d c2 v2 n2).logs.filter
        (fun l => l.activity_id == a && l.log_date == d)) =
      [{ id := (logActivity db u a d c1 v1 n1).nextLogId, activity_id := a,
         user_id := u, completed := if c2 then 1 else 0, actual_value := v2,
         notes := n2, log_date := d }] :=
  logActivity_filter_key (logActivity db u a d c1 v1 n1) u a d c2 v2 n2

/-! ## Claim C4 — total_count for an activity with zero logs in range -/

/-- The aggregate row `getActivityStats` produces for an activity whose
log group is empty: the LEFT JOIN emits one all-NULL row, `COUNT(*)`
counts it, the conditional aggregates do not. -/
theorem statForActivity_empty (db : DB) (startDate endDate : String)
    (fa : ActivityRow)
    (hmatched : db.logs.filter (fun al =>
      al.activity_id == fa.id && dateLe startDate al.log_date &&
      dateLe al.log_date endDate) = []) :
    statForActivity db startDate endDate fa =
      { id := fa.id, name := fa.name, category := fa.category,
        completed_count := 0, total_count := 1, completion_rate := 0 } := by
  unfold statForActivity joinRowsFor
  rw [hmatched]
  simp

/-- C4 (code_bug evidence): for a user whose single active activity has no
log at all, `getActivityStats` reports `total_count = 1`, not `0` — the
`COUNT(*)` aggregate counts the all-NULL row the LEFT JOIN emits for an
activity with no match (while `completed_count` and `completion_rate`
treat the same row as zero). -/
theorem getActivityStats_counts_empty_group :
    getActivityStats statsDB 1 "2024-01-01" "2024-01-31" =
      [{ id := 1, name := "Run", category := "exercise",
         completed_count := 0, total_count := 1, completion_rate := 0 }] := by
  have h : getActivityStats statsDB 1 "2024-01-01" "2024-01-31" =
      [statForActivity statsDB "2024-01-01" "2024-01-31" statsActivity] := rfl
  rw [h, statForActivity_empty statsDB "2024-01-01" "2024-01-31" statsActivity rfl]
  rfl

/-! ## Claim C5 — completion_rate for an activity with zero logs in range -/

/-- C5: an active activity of the user with no log row in the queried date
range is reported by `getActivityStats` (the LEFT JOIN keeps the group),
and its `completion_rate` is 0 — the CASE expression inside AVG maps the
all-NULL join row to 0.0, so no division by zero occurs (the model is a
total function). -/
theorem getActivityStats_zero_logs_rate_zero (db : DB) (userId : Nat)
    (startDate endDate : String) (fa : ActivityRow)
    (hmem : fa ∈ db.activities) (huser : fa.user_id = userId)
    (hact : fa.is_active = 1)
    (hno : ∀ l ∈ db.logs, ¬(l.activity_id = fa.id ∧
        dateLe startDate l.log_date = true ∧ dateLe l.log_date endDate = true)) :
    statForActivity db startDate endDate fa ∈
        getActivityStats db userId startDate endDate ∧
    (statForActivity db startDate endDate fa).completion_rate = 0 := by
  have hmatched : db.logs.filter (fun al =>
      al.activity_id == fa.id && dateLe startDate al.log_date &&
      dateLe al.log_date endDate) = [] := by
    rw [List.filter_eq_nil_iff]
    intro l hl
    have hnl := hno l hl
    simp only [Bool.and_eq_true, beq_iff_eq]
    tauto
  constructor
  · apply List.mem_map_of_mem
    rw [List.mem_filter]
    exact ⟨hmem, by simp [huser, hact]⟩
  · unfold statForActivity joinRowsFor
    rw [hmatched]
    simp

/-- Witness for C5 at a concrete store: one active activity, empty log
table. -/
theorem getActivityStats_zero_logs_rate_zero_witness :
    statForActivity statsDB "2024-01-01" "2024-01-31" statsActivity ∈
        getActivityStats statsDB 1 "2024-01-01" "2024-01-31" ∧
    (statForActivity statsDB "2024-01-01" "2024-01-31"
        statsActivity).completion_rate = 0 :=
  getActivityStats_zero_logs_rate_zero statsDB 1 "2024-01-01" "2024-01-31"
    statsActivity (by decide) rfl rfl (by simp [statsDB])

/-! ## Claim C7 — login failure indistinguishability -/

/-- C7: `login` fails when no user matches the normalized email, and when
a user matches but password verification fails; in both cases the thrown
error carries the one literal message `Invalid email or password`, and the
state is left untouched. -/
theorem login_failures_same_message (digest : String → String)
    (st : AuthState) (email password : String)
    (h : getUserByEmail st.db (jsToLower email) = none ∨
      ∃ u, getUserByEmail st.db (jsToLower email) = some u ∧
        verifyPassword digest password u.password_hash = false) :
    login digest st email password =
      (.error (.thrown "Invalid email or password"), st) := by
  unfold login
  rcases h with h | ⟨u, hu, hv⟩
  · rw [h]
  · rw [hu]
    simp [hv]

/-- Witness for C7: unknown email on the empty store. -/
theorem login_failures_same_message_witness :
    login demoDigest emptyAuthState "a@b.c" "pw" =
      (.error (.thrown "Invalid email or password"), emptyAuthState) :=
  login_failures_same_message demoDigest emptyAuthState "a@b.c" "pw" (Or.inl rfl)

/-! ## Claim C9 — verifyPassword on malformed stored strings -/

/-- C9 counterexample: `"a:ff:c"` is malformed — it cannot be split as
`salt:digest` with delimiter-free parts — yet `verifyPassword` returns
`true` on it for a digest function that yields `"ff"`: the JS
destructuring of `split(':')` silently takes the *second* segment as the
digest and ignores the rest. -/
theorem verifyPassword_malformed_true :
    (¬ ∃ s h : String, ':' ∉ s.data ∧ ':' ∉ h.data ∧
        ("a:ff:c" : String) = s ++ ":" ++ h) ∧
    verifyPassword (fun _ => "ff") "p" "a:ff:c" = true := by
  constructor
  · rintro ⟨s, h, hs, hh, heq⟩
    have hdata : ("a:ff:c" : String).data = s.data ++ ':' :: h.data := by
      rw [heq, data_append_colon]
    have hcount : (("a:ff:c" : String).data).count ':' = 2 := by decide
    rw [hdata] at hcount
    simp [List.count_append, List.count_cons, List.count_eq_zero.mpr hs,
      List.count_eq_zero.mpr hh] at hcount
  · rfl

/-- C9 amended: `verifyPassword` never throws (it is a total function
whose JS counterpart catches internally), and on every stored string that
contains no `:` delimiter at all it returns `false` — the digest slot of
the destructuring is then `undefined` and the comparison fails. -/
theorem verifyPassword_no_delimiter_false (digest : String → String)
    (password stored : String) (h : ':' ∉ stored.data) :
    verifyPassword digest password stored = false := by
  unfold verifyPassword
  rw [splitOnColon_of_no_colon _ h]
  rfl

/-- Witness for the amended C9 at a concrete delimiter-free string. -/
theorem verifyPassword_no_delimiter_false_witness :
    verifyPassword demoDigest "p" "deadbeef" = false :=
  verifyPassword_no_delimiter_false demoDigest "p" "deadbeef" (by decide)

/-! ## Claim C10 — changePassword on a missing user -/

/-- C10: for a `userId` matching no user, `changePassword` fails with the
runtime `TypeError` of dereferencing the missing record (`user.email` on
`undefined`), not a typed `NotFound`/`InvalidCredentials` error, and the
store — in particular every stored `password_hash` — is untouched. -/
theorem changePassword_missing_user (digest : String → String)
    (saltBytes : List Nat) (st : AuthState) (userId : Nat)
    (currentPassword newPassword : String)
    (h : getUserById st.db userId = none) :
    changePassword digest saltBytes st userId currentPassword newPassword =
      (.error (.typeError "Cannot read properties of undefined (reading email)"),
        st) := by
  unfold changePassword
  rw [h]

/-- Witness for C10: user id 1 on the empty store. -/
theorem changePassword_missing_user_witness :
    changePassword demoDigest demoSaltBytes emptyAuthState 1 "old" "new" =
      (.error (.typeError "Cannot read properties of undefined (reading email)"),
        emptyAuthState) :=
  changePassword_missing_user demoDigest demoSaltBytes emptyAuthState 1
    "old" "new" rfl

/-! ## Claim C8 — sessions never contain the password hash -/

theorem register_preserves_sessionClean (digest : String → String)
    (saltBytes : List Nat) (st : AuthState) (e p n : String)
    (h : sessionClean st) :
    sessionClean (register digest saltBytes st e p n).2 := by
  have hpv : validatePassword p = { isValid := true, errors := [] } := rfl
  unfold register
  simp only [hpv, Bool.not_true, Bool.false_eq_true, if_false]
  split
  · exact h
  · split
    · exact h
    · split
      · exact h
      · split
        · exact h
        · intro s hs u hu
          have hs' := Option.some.inj hs
          rw [← hs'] at hu
          exact getUserById_password_hash _ _ _ hu

theorem login_preserves_sessionClean (digest : String → String)
    (st : AuthState) (e p : String) (h : sessionClean st) :
    sessionClean (login digest st e p).2 := by
  unfold login
  split
  · exact h
  · split
    · intro s hs u hu
      have hs' := Option.some.inj hs
      rw [← hs'] at hu
      rw [← Option.some.inj hu]
    · exact h

/-- C8: starting from any database with no session, every state reachable
by a sequence of `register`, `login`, `getCurrentUser` and `logout`
operations satisfies `sessionClean`: the persisted session record (hence
also the user object `getCurrentUser` returns from it) carries no
`password_hash`. -/
theorem runOps_sessionClean (digest : String → String) (saltBytes : List Nat)
    (db0 : DB) (ops : List Op) :
    sessionClean (runOps digest saltBytes { db := db0, session := none } ops) := by
  have hstep : ∀ st op, sessionClean st →
      sessionClean (applyOp digest saltBytes st op) := by
    intro st op h
    cases op with
    | register e p n => exact register_preserves_sessionClean _ _ _ _ _ _ h
    | login e p => exact login_preserves_sessionClean _ _ _ _ h
    | getCurrentUser => exact h
    | logout => intro s hs; cases hs
  have hfold : ∀ (l : List Op) (st : AuthState), sessionClean st →
      sessionClean (List.foldl (applyOp digest saltBytes) st l) := by
    intro l
    induction l with
    | nil => intro st h; exact h
    | cons o os ih => intro st h; exact ih _ (hstep _ _ h)
  exact hfold ops _ (fun s hs => by cases hs)

/-! ## Claim C6 — register then login round trip -/

/-- Normal form of a successful `register`: under passing guards it
returns the `getUserById` re-read of the new user and a state whose store
is `registerDb` and whose session holds that same record. -/
theorem register_success_eq (digest : String → String) (saltBytes : List Nat)
    (st : AuthState) (email password fullName : String)
    (hE : validateEmail email = true)
    (hN : ¬(jsTrim fullName).length < 2)
    (hD : getUserByEmail st.db (jsToLower email) = none) :
    register digest saltBytes st email password fullName =
      (.ok (getUserById
          (registerDb digest saltBytes st.db email password fullName)
          st.db.nextUserId),
       createSession
        (getUserById (registerDb digest saltBytes st.db email password fullName)
          st.db.nextUserId)
        { st with
          db := registerDb digest saltBytes st.db email password fullName }) := by
  have hany := getUserByEmail_none_any st.db (jsToLower email) hD
  have hpv : validatePassword password = { isValid := true, errors := [] } := rfl
  unfold register createUser registerDb
  simp [hpv, hE, hD, hany, if_neg hN]

/-- C6: whenever `register` succeeds (valid email, any password — the
strength stub accepts all, trimmed name of length ≥ 2, no user under the
normalized email), a subsequent `login` with the same email and password
succeeds, and the returned record's id equals the id of the record
`register` returned. The only fact assumed about the external digest
function is that its output contains no `:` (true of SHA-256 hex
output). -/
theorem register_then_login_same_id (digest : String → String)
    (saltBytes : List Nat) (st : AuthState) (email password fullName : String)
    (hdig : ∀ x, ':' ∉ (digest x).data)
    (hE : validateEmail email = true)
    (hN : ¬(jsTrim fullName).length < 2)
    (hD : getUserByEmail st.db (jsToLower email) = none) :
    ∃ u st' v st'',
      register digest saltBytes st email password fullName =
        (.ok (some u), st') ∧
      login digest st' email password = (.ok v, st'') ∧
      v.id = u.id := by
  have hreg := register_success_eq digest saltBytes st email password fullName
    hE hN hD
  generalize hDB : registerDb digest saltBytes st.db email password fullName = D
    at hreg
  have husersD : D.users = st.db.users ++
      [{ id := st.db.nextUserId, email := jsToLower email,
         password_hash := hashPassword digest saltBytes password,
         full_name := jsTrim fullName }] := by
    rw [← hDB]
    unfold registerDb
    rw [createDefaultActivities_users, createOrUpdateProfile_users]
  obtain ⟨u0, hu0⟩ : ∃ u0, getUserById D st.db.nextUserId = some u0 := by
    unfold getUserById
    rw [husersD, List.find?_append]
    cases hfa : st.db.users.find? (fun u => u.id == st.db.nextUserId) with
    | none =>
      refine ⟨⟨st.db.nextUserId, jsToLower email, jsTrim fullName, none⟩, ?_⟩
      simp
    | some x =>
      refine ⟨⟨x.id, x.email, x.full_name, none⟩, ?_⟩
      simp
  have hu0id : u0.id = st.db.nextUserId := getUserById_id D _ u0 hu0
  have hlookup : getUserByEmail D (jsToLower email) = some
      { id := st.db.nextUserId, email := jsToLower email,
        password_hash := hashPassword digest saltBytes password,
        full_name := jsTrim fullName } := by
    unfold getUserByEmail at hD ⊢
    rw [husersD, List.find?_append, hD]
    simp
  have hverify : verifyPassword digest password
      (hashPassword digest saltBytes password) = true :=
    verifyPassword_hashPassword digest hdig saltBytes password
  let vRec : JsUser := ⟨st.db.nextUserId, jsToLower email, jsTrim fullName, none⟩
  refine ⟨u0, createSession (getUserById D st.db.nextUserId) { st with db := D },
    vRec,
    createSession (some vRec)
      (createSession (getUserById D st.db.nextUserId) { st with db := D }),
    by rw [hreg, hu0], ?_, hu0id.symm⟩
  unfold login
  rw [show (createSession (getUserById D st.db.nextUserId)
      { st with db := D }).db = D from rfl, hlookup]
  simp [hverify]

/-- Witness for C6 at concrete inputs on the fresh store. -/
theorem register_then_login_same_id_witness :
    ∃ u st' v st'',
      register demoDigest demoSaltBytes emptyAuthState
          "a@b.c" "Passw0rd" "Alice" =
        (.ok (some u), st') ∧
      login demoDigest st' "a@b.c" "Passw0rd" = (.ok v, st'') ∧
      v.id = u.id :=
  register_then_login_same_id demoDigest demoSaltBytes emptyAuthState
    "a@b.c" "Passw0rd" "Alice"
    (fun x => by show ':' ∉ ("d4c2" : String).data; decide)
    (by decide) (by decide) rfl
